import Mathlib

/-!
# Verification of gcache MemStore, gcs_fifo_lite, gcs_gcomm recv and the asio
# socket contract (galera)

Shallow embedding of:
* `gcache::MemStore` (gcache/src/gcache_mem_store.hpp): a bounded in-memory
  buffer store.  Machine memory is modelled as a map from addresses (`Nat`)
  to buffers; the C system allocator (`::malloc` / `::realloc`) is modelled
  by an explicit oracle argument (`none` = allocation failure), since its
  outcome is decided by the environment, not by the code.
* `gcs_fifo_lite_create` / `gcs_fifo_lite_close` (gcs/src/gcs_fifo_lite.c),
  with 64-bit `size_t` arithmetic made explicit (`% 2^64`).
* `gcs_gcomm_recv` (gcs/src/gcs_gcomm.cpp): the event queue consumption
  logic.
* the asio socket/stream-engine contract exercised by
  galerautils/tests/gu_asio_test.cpp (the implementation is outside this
  tree, so those definitions are modelled from the spec).

Assertions (`assert(...)`) compile out in release builds; operations are
embedded with release semantics, and each assertion condition that a claim
refers to is embedded as a separate decidable predicate.
-/

namespace Gcache

/-- Sentinel for an unassigned global seqno (`SEQNO_NONE`). -/
def SEQNO_NONE : Int := 0

/-- Open upper bound sentinel (`SEQNO_MAX`), the largest `int64_t`. -/
def SEQNO_MAX : Int := 2 ^ 63 - 1

/-- Store tag stored in a buffer header (`BUFFER_IN_MEM`). -/
def BUFFER_IN_MEM : Nat := 1

/-- Flag bit `BUFFER_RELEASED` of a buffer header. -/
def BUFFER_RELEASED : Nat := 1

/-- Buffer header (`gcache::BufferHeader`): `(size, seqno_g, flags, store, ctx)`.
`ctx` is the back-pointer to the owning store, embedded as the store's
identity. -/
structure BufferHeader where
  size    : Nat
  seqno_g : Int
  flags   : Nat
  store   : Nat
  ctx     : Nat
deriving DecidableEq, Repr

/-- Embedding of `BH_is_released(bh)`: tests the `BUFFER_RELEASED` bit of `flags`. -/
def BH_is_released (bh : BufferHeader) : Bool := bh.flags % 2 = 1

/-- A buffer living in machine memory: its header followed by the payload
bytes. -/
structure MemBuf where
  bh      : BufferHeader
  payload : List Nat
deriving DecidableEq, Repr

/-- The embedding of the pointer arithmetic `bh + 1`: the payload pointer
sits one header-size unit past the header address. -/
def BH2ptr (a : Nat) : Nat := a + 1

/-- The embedding of `ptr2BH(ptr)`: the header address one header-size unit
before the payload pointer. -/
def ptr2BH (p : Nat) : Nat := p - 1

/-- State of `gcache::MemStore`.  `heap` is the machine memory holding the
buffers this store allocated; `allocd_` is the `std::set<void*>` of live
header addresses; `seqno2ptr_` is the shared seqno → buffer-address index
(never mutated by the operations in this file); `self` is the store's own
identity (the value of `this` written into `bh->ctx`). -/
structure MemStore where
  max_size_     : Nat
  size_         : Nat
  allocd_       : Finset Nat
  heap          : Nat → Option MemBuf
  seqno2ptr_    : Int → Option Nat
  seqno_locked_ : Int
  self          : Nat

/-- Modelled from the spec: `MemStore::have_free_space` is declared in the
header but defined elsewhere; the spec says the store is "bounded by
`mem_max`" and "maintains `size_` against `mem_max`", and `malloc` asserts
`size_ + size <= max_size_` right after a positive answer.  The argument is
an `Int` because `realloc` passes a (possibly negative) size difference. -/
def have_free_space (st : MemStore) (size : Int) : Bool :=
  (st.size_ : Int) + size ≤ (st.max_size_ : Int)

/-- Embedding of `MemStore::malloc(size)`.  `sys` is the system-allocator oracle: `none`
when `::malloc` returns null, `some (a, junk)` when it returns a fresh block
at header address `a` whose payload holds uninitialised bytes `junk`.
Returns the payload pointer (or `none` for null) and the new store state. -/
def mallocOp (st : MemStore) (size : Nat) (sys : Option (Nat × List Nat)) :
    Option Nat × MemStore :=
  if size > st.max_size_ ∨ have_free_space st (size : Int) = false then
    (none, st)
  else
    match sys with
    | none => (none, st)
    | some (a, junk) =>
      let bh : BufferHeader :=
        { size := size, seqno_g := SEQNO_NONE, flags := 0,
          store := BUFFER_IN_MEM, ctx := st.self }
      (some (BH2ptr a),
       { st with
           allocd_ := insert a st.allocd_,
           heap    := Function.update st.heap a (some ⟨bh, junk⟩),
           size_   := st.size_ + size })

/-- Embedding of `MemStore::discard(bh)` with release semantics (the two assertions are
`discard_asserts`): subtract the buffer's size from `size_`, erase the
header address from `allocd_` and free the memory. -/
def discardOp (st : MemStore) (a : Nat) : MemStore :=
  match st.heap a with
  | none => st
  | some buf =>
    { st with
        size_   := st.size_ - buf.bh.size,
        allocd_ := st.allocd_.erase a,
        heap    := Function.update st.heap a none }

/-- The assertion conditions of `MemStore::discard`:
`BH_is_released(bh)` and `bh->seqno_g < seqno_locked_`. -/
def discard_asserts (st : MemStore) (buf : MemBuf) : Bool :=
  BH_is_released buf.bh && buf.bh.seqno_g < st.seqno_locked_

/-- Embedding of `MemStore::discard` with the assertions checked: `none` models the
debug-build abort on assertion failure. -/
def discardChecked (st : MemStore) (a : Nat) : Option MemStore :=
  match st.heap a with
  | none => none
  | some buf =>
    if discard_asserts st buf then some (discardOp st a) else none

/-- Embedding of `MemStore::free(bh)`: discards immediately when the buffer has no
assigned global seqno, otherwise does nothing (deallocation of seqno'd
buffers is deferred to `discard`). -/
def freeOp (st : MemStore) (a : Nat) : MemStore :=
  match st.heap a with
  | none => st
  | some buf =>
    if buf.bh.seqno_g = SEQNO_NONE then discardOp st a else st

/-- Embedding of `MemStore::repossess(bh)`: contains only assertions, so with release
semantics it leaves the store untouched (the caller clears the released
flag afterwards). -/
def repossessOp (st : MemStore) (_a : Nat) : MemStore := st

/-- The assertion conditions of `MemStore::repossess`. -/
def repossess_asserts (st : MemStore) (buf : MemBuf) : Bool :=
  buf.bh.size > 0 && buf.bh.seqno_g ≠ SEQNO_NONE &&
  buf.bh.store = BUFFER_IN_MEM && buf.bh.ctx = st.self &&
  BH_is_released buf.bh

/-- Embedding of `MemStore::seqno_lock(seqno_g)`. -/
def seqno_lockOp (st : MemStore) (seqno_g : Int) : MemStore :=
  { st with seqno_locked_ := seqno_g }

/-- Embedding of `MemStore::seqno_unlock()`. -/
def seqno_unlockOp (st : MemStore) : MemStore :=
  { st with seqno_locked_ := SEQNO_MAX }

/-- Embedding of `MemStore::realloc(ptr, size)`.  `ptr = 0` embeds the null pointer.
`sysM` is the `::malloc` oracle used when `ptr` is null; `sysR` is the
`::realloc` oracle: `none` when `::realloc` fails (the original block is
left untouched), `some t` when it returns a block at header address `t`
(possibly equal to the original) holding the copied contents. -/
def reallocOp (st : MemStore) (ptr : Nat) (size : Nat)
    (sysM : Option (Nat × List Nat)) (sysR : Option Nat) :
    Option Nat × MemStore :=
  if ptr = 0 then mallocOp st size sysM
  else
    let a := ptr2BH ptr
    match st.heap a with
    | none => (none, st)
    | some buf =>
      if size = 0 then (none, freeOp st a)
      else
        let old_size := buf.bh.size
        if size > st.max_size_ ∨
           have_free_space st ((size : Int) - (old_size : Int)) = false then
          (none, st)
        else
          match sysR with
          | some t =>
            let moved : MemBuf := ⟨{ buf.bh with size := size }, buf.payload⟩
            (some (BH2ptr t),
             { st with
                 allocd_ := insert t (st.allocd_.erase a),
                 heap    := Function.update (Function.update st.heap a none) t
                              (some moved),
                 size_   := st.size_ + size - old_size })
          | none =>
            (none, { st with allocd_ := insert a (st.allocd_.erase a) })

end Gcache

namespace GcsFifo

/-- Bound of the 64-bit machine word (`size_t` on the LP64 targets this code builds
for, where `size_t` and `unsigned long` coincide). -/
def WORD : Nat := 2 ^ 64

/-- Value of `GU_LONG_MAX` (`LONG_MAX`, 2^63 - 1). -/
def GU_LONG_MAX : Nat := 2 ^ 63 - 1

/-- Value of `GU_ULONG_MAX` (`ULONG_MAX`, 2^64 - 1). -/
def GU_ULONG_MAX : Nat := 2 ^ 64 - 1

/-- The rounding loop of `gcs_fifo_lite_create`:
`size_t l = 1; while (l < length) l = l << 1;` with `size_t` arithmetic
mod `2^64`.  For `length > 2^63` the C loop never terminates (`l` wraps to
`0` and stays there); the fuel models that as `none`.  66 iterations are
enough fuel for every terminating run. -/
def roundLoop : Nat → Nat → Nat → Option Nat
  | 0, _, _ => none
  | fuel + 1, l, length =>
    if l < length then roundLoop fuel (l * 2 % WORD) length else some l

/-- State of `gcs_fifo_lite_t`: the fields touched by create/close, with
`queue` holding the raw queue bytes and `queueBytes` its allocated byte
count (`length * item_size` in `size_t` arithmetic). -/
structure FifoLite where
  item_size  : Nat
  length     : Nat
  mask       : Nat
  used       : Nat
  closed     : Bool
  destroyed  : Bool
  put_wait   : Nat
  get_wait   : Nat
  queueBytes : Nat
  queue      : List Nat
deriving DecidableEq, Repr

/-- Embedding of `gcs_fifo_lite_create(length, item_size)`.  `callocOk` is the
`GU_CALLOC` oracle; `mallocRes` the `gu_malloc` oracle (`some junk` =
success with uninitialised bytes `junk`, `none` = failure).  Returns `none`
for a NULL result.  NOTE: the comparison `l * item_size > (ulong)
GU_ULONG_MAX` is embedded exactly as C evaluates it: the product is reduced
mod `2^64` first, so the branch can never be taken. -/
def gcs_fifo_lite_create (length item_size : Nat)
    (callocOk : Bool) (mallocRes : Option (List Nat)) : Option FifoLite :=
  if length < 1 ∨ item_size < 1 then none
  else
    match roundLoop 66 1 length with
    | none => none   -- the C loop diverges here; no value is ever returned
    | some l =>
      if l > GU_LONG_MAX then none
      else if l * item_size % WORD > GU_ULONG_MAX then none
      else if callocOk = false then none
      else
        match mallocRes with
        | none => none
        | some junk =>
          some { item_size := item_size, length := l, mask := l - 1,
                 used := 0, closed := false, destroyed := false,
                 put_wait := 0, get_wait := 0,
                 queueBytes := l * item_size % WORD, queue := junk }

/-- Embedding of `gcs_fifo_lite_close(fifo)`.  `lockRes` is the `gu_mutex_lock` result
(0 = success).  Returns the `long` result, the new state, and the two
condition-variable broadcast events (`put_cond`, `get_cond`). -/
def gcs_fifo_lite_close (f : FifoLite) (lockRes : Nat) :
    Nat × FifoLite × Bool × Bool :=
  if lockRes = 0 then
    (0, { f with closed := true, put_wait := 0, get_wait := 0 }, true, true)
  else
    (lockRes, f, false, false)

end GcsFifo

namespace GcsGcomm

/-- Value of `ENOTCONN` on Linux. -/
def ENOTCONN : Int := 107

/-- Value of `ENOMEM` on Linux. -/
def ENOMEM : Int := 12

/-- A queued `vs_ev` event of the `gcs_gcomm` backend:
* `msg payload ut src` — a delivered message carried in a `ReadBuf`;
* `preCopied ms ut src` — a message already copied into the waiter's buffer
  by `handle_up` (`rb = 0`, `msg_size = ms > 0`);
* `viewEv bytes` — a view event, `bytes` being the serialized component
  message that `gcs_comp_msg_new` + `fill_comp` build from the view (the
  comp-msg module is outside this tree; same view, same bytes);
* `eofEv` — the null event pushed on broken connection. -/
inductive VsEv where
  | msg (payload : List Nat) (user_type : Nat) (source : Nat)
  | preCopied (msg_size : Nat) (user_type : Nat) (source : Nat)
  | viewEv (bytes : List Nat)
  | eofEv
deriving DecidableEq, Repr

/-- The size `gcs_gcomm_recv` reports for an event at the queue front. -/
def reqSize : VsEv → Nat
  | .msg payload _ _ => payload.length
  | .preCopied ms _ _ => ms
  | .viewEv bytes => bytes.length
  | .eofEv => 0

/-- State of `gcs_backend_conn` relevant to `recv`. -/
structure GConn where
  eq         : List VsEv
  n_received : Nat
  n_copied   : Nat
  comp_msg   : Option (List Nat)
  terminate  : Bool
deriving DecidableEq, Repr

/-- Embedding of `gcs_gcomm_recv(buf, len)`: returns the `long` result, the bytes written
into the caller's buffer, and the new connection state.  `wait_event` only
peeks at the queue front; `release_event` (pop + `ReadBuf::release`) and the
`n_received` increment run only under `ret <= len`.  On a view event,
`compAlloc` is the allocation oracle for
`gcs_comp_msg_new` / `gcs_comp_msg_leave`: when it fails the function
returns `-ENOMEM` before `conn->comp_msg` is replaced and without dequeuing
or counting.  An empty queue makes `wait_event` block, which a sequential
model cannot enter: that branch is embedded as an identity placeholder and
excluded by hypothesis in every theorem. -/
def gcs_gcomm_recv (c : GConn) (len : Nat) (compAlloc : Bool) :
    Int × List Nat × GConn :=
  if c.terminate then (-ENOTCONN, [], c)
  else
    match c.eq with
    | [] => (0, [], c)   -- wait_event blocks here; unreachable sequentially
    | ev :: rest =>
      match ev with
      | .eofEv => (-ENOTCONN, [], c)
      | .msg payload _ _ =>
        let ret := payload.length
        if ret ≤ len then
          (ret, payload,
           { c with eq := rest, n_received := c.n_received + 1,
                    n_copied := c.n_copied + 1 })
        else
          (ret, [], c)
      | .preCopied ms _ _ =>
        if ms ≤ len then
          (ms, [], { c with eq := rest, n_received := c.n_received + 1 })
        else
          (ms, [], c)
      | .viewEv bytes =>
        if compAlloc = false then (-ENOMEM, [], c)
        else
          let sz := bytes.length
          let cpy := min sz len
          let ret := max sz len
          let c1 := { c with comp_msg := some bytes }
          if ret ≤ len then
            (ret, bytes.take cpy,
             { c1 with eq := rest, n_received := c.n_received + 1 })
          else
            (ret, bytes.take cpy, c1)

/-- A live connection with a three-byte message and a view event queued. -/
def c0 : GConn :=
  { eq := [.msg [1, 2, 3] 0 0, .viewEv [9]], n_received := 0, n_copied := 0,
    comp_msg := none, terminate := false }

/-- A live connection with a single one-byte view event queued. -/
def cV : GConn :=
  { eq := [.viewEv [9]], n_received := 0, n_copied := 0,
    comp_msg := none, terminate := false }

end GcsGcomm

namespace GuAsio

/-- Value of `EBUSY` on Linux. -/
def EBUSY : Nat := 16

/-- Modelled from the spec: the async-write half of the `AsioSocket`
contract (`gu_asio.cpp` is outside this tree; only its test is present).
"`async_write(buffers, handler)` ... A second concurrent `async_write` on a
socket with one in flight is an error (signalled as a busy condition)."
`in_flight` holds the gathered bytes of the outstanding write; `completed`
records each write-handler invocation as the number of bytes it reports
transferred. -/
structure SocketW where
  in_flight : Option (List Nat)
  completed : List Nat
deriving DecidableEq, Repr

/-- Modelled from the spec: starting an `async_write`.  With one write in
flight it fails with the busy error kind (`some EBUSY`) and leaves the
socket — in particular the in-flight buffer — untouched; otherwise it
registers the gathered buffers as the outstanding write. -/
def async_write (s : SocketW) (bufs : List Nat) : Option Nat × SocketW :=
  match s.in_flight with
  | some _ => (some EBUSY, s)
  | none => (none, { s with in_flight := some bufs })

/-- Modelled from the spec: the reactor completing the outstanding write —
the write handler fires with all the bytes of the in-flight buffer
transferred. -/
def complete_write (s : SocketW) : SocketW :=
  match s.in_flight with
  | none => s
  | some b => { in_flight := none, completed := s.completed ++ [b.length] }

/-- Stream-engine operation status (`gu::AsioStreamEngine::op_status`). -/
inductive OpStatus where
  | success | want_read | want_write | eof | error
deriving DecidableEq, Repr

/-- Reactor events a connecting client socket can observe: the TCP connect
completing, the socket becoming readable, the socket becoming writable. -/
inductive CEvent where
  | tcp_connected | readable | writable
deriving DecidableEq, Repr

/-- Modelled from the spec: the connect-side handshake state of a client
socket whose stream engine is scripted.  `script` holds the results the
engine's `client_handshake()` will return on successive calls (paired with
the engine error code reported on `eof`/`error`); `calls` counts
`client_handshake()` invocations; `awaiting` is what the reactor waits for
when the engine asked for `want_read`/`want_write`; `handler_fired` records
every `connect_handler` invocation with its error code (`none` = no
error). -/
structure ClientHs where
  script        : List (OpStatus × Nat)
  calls         : Nat
  awaiting      : Option OpStatus
  handler_fired : List (Option Nat)
deriving DecidableEq, Repr

/-- Modelled from the spec: one `client_handshake()` round.  "`client_handshake()`
→ one of `{success, want_read, want_write, eof, error}`; re-invoked when the
socket becomes readable/writable as requested."  On `success` the
`connect_handler` fires with no error; on `eof`/`error` it fires with the
engine's error; on `want_read`/`want_write` the reactor records what to
wait for. -/
def do_handshake (c : ClientHs) : ClientHs :=
  match c.script with
  | [] => c
  | (st, err) :: rest =>
    let c := { c with script := rest, calls := c.calls + 1, awaiting := none }
    match st with
    | .success => { c with handler_fired := c.handler_fired ++ [none] }
    | .want_read => { c with awaiting := some .want_read }
    | .want_write => { c with awaiting := some .want_write }
    | .eof => { c with handler_fired := c.handler_fired ++ [some err] }
    | .error => { c with handler_fired := c.handler_fired ++ [some err] }

/-- Modelled from the spec: the reactor dispatching one event to a
connecting client socket.  The handshake runs when the TCP connect
completes, and is re-invoked when the socket becomes readable (resp.
writable) if the engine asked for `want_read` (resp. `want_write`).  Once
the `connect_handler` has fired the connect phase is over and no further
event reaches the handshake. -/
def hs_step (c : ClientHs) (ev : CEvent) : ClientHs :=
  if c.handler_fired ≠ [] then c
  else
    match ev with
    | .tcp_connected => do_handshake c
    | .readable =>
      if c.awaiting = some .want_read then do_handshake c else c
    | .writable =>
      if c.awaiting = some .want_write then do_handshake c else c

/-- Runs the reactor over a sequence of events. -/
def hs_run (c : ClientHs) (evs : List CEvent) : ClientHs :=
  evs.foldl hs_step c

/-- The initial connect-phase state for an engine scripted to return the
given statuses. -/
def hs_init (script : List (OpStatus × Nat)) : ClientHs :=
  { script := script, calls := 0, awaiting := none, handler_fired := [] }

end GuAsio

namespace Gcache

/-- A released buffer with assigned seqno 7 living at header address 5. -/
def bufA : MemBuf :=
  ⟨{ size := 10, seqno_g := 7, flags := 1, store := BUFFER_IN_MEM, ctx := 0 },
   [1, 2, 3]⟩

/-- A released buffer with assigned seqno 3 living at header address 6. -/
def bufB : MemBuf :=
  ⟨{ size := 10, seqno_g := 3, flags := 1, store := BUFFER_IN_MEM, ctx := 0 },
   [4, 5]⟩

/-- A store holding `bufA` at address 5 and `bufB` at address 6. -/
def stA : MemStore :=
  { max_size_ := 100, size_ := 20, allocd_ := {5, 6},
    heap := fun a => if a = 5 then some bufA else
                     if a = 6 then some bufB else none,
    seqno2ptr_ := fun s => if s = 7 then some 5 else
                           if s = 3 then some 6 else none,
    seqno_locked_ := SEQNO_MAX, self := 0 }

/-- A released buffer with no assigned seqno (`SEQNO_NONE`). -/
def bufN : MemBuf :=
  ⟨{ size := 10, seqno_g := SEQNO_NONE, flags := 1, store := BUFFER_IN_MEM,
     ctx := 0 }, [9]⟩

/-- An unreleased buffer with assigned seqno 7. -/
def bufU : MemBuf :=
  ⟨{ size := 10, seqno_g := 7, flags := 0, store := BUFFER_IN_MEM, ctx := 0 },
   [8]⟩

/-- A store holding `bufN` at address 5 and `bufU` at address 6. -/
def stN : MemStore :=
  { max_size_ := 100, size_ := 20, allocd_ := {5, 6},
    heap := fun a => if a = 5 then some bufN else
                     if a = 6 then some bufU else none,
    seqno2ptr_ := fun s => if s = 7 then some 6 else none,
    seqno_locked_ := SEQNO_MAX, self := 0 }

end Gcache

namespace Gcache

/-- Claim C1: for a MemStore buffer with an assigned seqno and any requested
new size, when `::realloc` fails (`sysR = none`), `MemStore::realloc`
returns null and the original buffer survives unchanged: it is still
allocated at its original address, it is (re-)present in the allocation
tracking set under that address, and `size_` is unchanged. -/
theorem c1_realloc_failure_preserves_buffer
    (st : MemStore) (a : Nat) (buf : MemBuf) (size : Nat)
    (sysM : Option (Nat × List Nat))
    (hheap : st.heap a = some buf)
    (hseq : buf.bh.seqno_g ≠ SEQNO_NONE)
    (hmem : a ∈ st.allocd_) :
    (reallocOp st (BH2ptr a) size sysM none).1 = none ∧
    (reallocOp st (BH2ptr a) size sysM none).2.heap = st.heap ∧
    a ∈ (reallocOp st (BH2ptr a) size sysM none).2.allocd_ ∧
    (reallocOp st (BH2ptr a) size sysM none).2.allocd_ = st.allocd_ ∧
    (reallocOp st (BH2ptr a) size sysM none).2.size_ = st.size_ := by
  have hne : BH2ptr a ≠ 0 := Nat.succ_ne_zero a
  have ha : ptr2BH (BH2ptr a) = a := rfl
  by_cases hz : size = 0
  · subst hz
    simp [reallocOp, hne, ha, hheap, freeOp, hseq, hmem]
  · by_cases hg : size > st.max_size_ ∨
        have_free_space st ((size : Int) - (buf.bh.size : Int)) = false
    · simp [reallocOp, hne, ha, hheap, hz, hg, hmem]
    · simp [reallocOp, hne, ha, hheap, hz, hg, Finset.insert_erase hmem, hmem]

/-- Witness for C1 at a concrete store and buffer. -/
theorem c1_realloc_failure_preserves_buffer_witness :
    (stA.heap 5 = some bufA ∧ bufA.bh.seqno_g ≠ SEQNO_NONE ∧
     5 ∈ stA.allocd_) ∧
    ((reallocOp stA (BH2ptr 5) 20 none none).1 = none ∧
     (reallocOp stA (BH2ptr 5) 20 none none).2.heap = stA.heap ∧
     5 ∈ (reallocOp stA (BH2ptr 5) 20 none none).2.allocd_ ∧
     (reallocOp stA (BH2ptr 5) 20 none none).2.allocd_ = stA.allocd_ ∧
     (reallocOp stA (BH2ptr 5) 20 none none).2.size_ = stA.size_) :=
  ⟨⟨by decide, by decide, by decide⟩,
   c1_realloc_failure_preserves_buffer stA 5 bufA 20 none (by decide)
     (by decide) (by decide)⟩

/-- Claim C2 counterexample: with the requested size within `mem_max` and
free space available, `MemStore::malloc` still returns null when the system
allocator fails — so "returns null exactly when s exceeds mem_max or there
is not enough free space" is false as stated. -/
theorem c2_malloc_counterexample :
    (mallocOp stA 10 none).1 = none ∧
    ¬(10 > stA.max_size_ ∨ have_free_space stA (10 : Int) = false) := by
  constructor
  · decide
  · decide

/-- Claim C2 (amended): `MemStore::malloc(s)` returns null exactly when `s`
exceeds `mem_max`, there is not enough free space, or the underlying system
allocation fails; otherwise it returns the payload pointer immediately
after the header, the header is populated with `size = s`,
`seqno_g = NONE`, `flags = 0`, the store tag and the back-pointer to the
owning store, the buffer is recorded in the allocation set, and `size_`
grows by `s` while staying bounded by `mem_max`. -/
theorem c2_malloc_spec (st : MemStore) (size : Nat)
    (sys : Option (Nat × List Nat)) :
    ((mallocOp st size sys).1 = none ↔
      size > st.max_size_ ∨ have_free_space st (size : Int) = false ∨
      sys = none) ∧
    (∀ a junk, sys = some (a, junk) →
      ¬(size > st.max_size_ ∨ have_free_space st (size : Int) = false) →
      (mallocOp st size sys).1 = some (BH2ptr a) ∧
      (mallocOp st size sys).2.heap a =
        some ⟨{ size := size, seqno_g := SEQNO_NONE, flags := 0,
                store := BUFFER_IN_MEM, ctx := st.self }, junk⟩ ∧
      a ∈ (mallocOp st size sys).2.allocd_ ∧
      (mallocOp st size sys).2.size_ = st.size_ + size ∧
      (mallocOp st size sys).2.size_ ≤ st.max_size_) := by
  constructor
  · by_cases hg : size > st.max_size_ ∨ have_free_space st (size : Int) = false
    · simp [mallocOp, hg]
      tauto
    · cases sys with
      | none => simp [mallocOp, hg]
      | some p => simp [mallocOp, hg]
  · intro a junk hsys hg
    subst hsys
    have hspace : have_free_space st (size : Int) = true := by
      rcases Bool.eq_false_or_eq_true (have_free_space st (size : Int)) with h | h
      · exact h
      · exact absurd (Or.inr h) hg
    have hbound : st.size_ + size ≤ st.max_size_ := by
      have := of_decide_eq_true (by simpa [have_free_space] using hspace)
      omega
    refine ⟨by simp [mallocOp, hg], ?_, ?_, ?_, ?_⟩
    · simp [mallocOp, hg, Function.update_same]
    · simp [mallocOp, hg]
    · simp [mallocOp, hg]
    · simpa [mallocOp, hg] using hbound

/-- Witness for the amended C2 at a concrete store, size and allocator
result. -/
theorem c2_malloc_spec_witness :
    (((mallocOp stA 10 (some (9, [0, 0]))).1 = none ↔
       10 > stA.max_size_ ∨ have_free_space stA (10 : Int) = false ∨
       (some (9, [0, 0]) : Option (Nat × List Nat)) = none) ∧
     (∀ a junk, (some (9, [0, 0]) : Option (Nat × List Nat)) = some (a, junk) →
       ¬(10 > stA.max_size_ ∨ have_free_space stA (10 : Int) = false) →
       (mallocOp stA 10 (some (9, [0, 0]))).1 = some (BH2ptr a) ∧
       (mallocOp stA 10 (some (9, [0, 0]))).2.heap a =
         some ⟨{ size := 10, seqno_g := SEQNO_NONE, flags := 0,
                 store := BUFFER_IN_MEM, ctx := stA.self }, junk⟩ ∧
       a ∈ (mallocOp stA 10 (some (9, [0, 0]))).2.allocd_ ∧
       (mallocOp stA 10 (some (9, [0, 0]))).2.size_ = stA.size_ + 10 ∧
       (mallocOp stA 10 (some (9, [0, 0]))).2.size_ ≤ stA.max_size_)) :=
  c2_malloc_spec stA 10 (some (9, [0, 0]))

/-- Claim C3 counterexample: `MemStore::free` physically reclaims a released
buffer that has no assigned seqno (falsifying "keeps the payload
addressable"), and it does not mark a seqno-assigned buffer's header
released (the flag is untouched). -/
theorem c3_free_counterexample :
    (freeOp stN 5).heap 5 = none ∧
    5 ∉ (freeOp stN 5).allocd_ ∧
    (freeOp stN 6).heap 6 = some bufU ∧
    BH_is_released bufU.bh = false := by
  refine ⟨?_, ?_, ?_, ?_⟩ <;> decide

/-- Claim C3 (amended): `free(b)` itself does not modify the header or the
payload; on a buffer with no assigned seqno it immediately discards, and a
buffer with an assigned global seqno is never deallocated by `free` (its
payload stays addressable until `discard`); `discard(b)` physically
reclaims the memory and removes `b` from the store's tracking set. -/
theorem c3_free_discard_spec (st : MemStore) (a : Nat) (buf : MemBuf)
    (hheap : st.heap a = some buf) :
    (buf.bh.seqno_g ≠ SEQNO_NONE → freeOp st a = st) ∧
    (buf.bh.seqno_g = SEQNO_NONE → freeOp st a = discardOp st a) ∧
    (discardOp st a).heap a = none ∧
    a ∉ (discardOp st a).allocd_ ∧
    (discardOp st a).size_ = st.size_ - buf.bh.size := by
  refine ⟨fun hs => ?_, fun hs => ?_, ?_, ?_, ?_⟩
  · simp [freeOp, hheap, hs]
  · simp [freeOp, hheap, hs]
  · simp [discardOp, hheap, Function.update_same]
  · simp [discardOp, hheap]
  · simp [discardOp, hheap]

/-- Witness for the amended C3 at a concrete store and buffer. -/
theorem c3_free_discard_spec_witness :
    stN.heap 5 = some bufN ∧
    ((bufN.bh.seqno_g ≠ SEQNO_NONE → freeOp stN 5 = stN) ∧
     (bufN.bh.seqno_g = SEQNO_NONE → freeOp stN 5 = discardOp stN 5) ∧
     (discardOp stN 5).heap 5 = none ∧
     5 ∉ (discardOp stN 5).allocd_ ∧
     (discardOp stN 5).size_ = stN.size_ - bufN.bh.size) :=
  ⟨by decide, c3_free_discard_spec stN 5 bufN (by decide)⟩

/-- Claim C4: for a buffer with an assigned global seqno that has been
released and passed to `free` (a no-op for seqno-assigned buffers),
`repossess` leaves the whole store state — in particular the buffer's
contents, `size_`, the allocation set — unchanged, and the buffer is still
discoverable through the seqno → pointer index. -/
theorem c4_repossess_frame (st : MemStore) (a : Nat) (buf : MemBuf)
    (hheap : st.heap a = some buf)
    (hseq : buf.bh.seqno_g ≠ SEQNO_NONE)
    (hrel : BH_is_released buf.bh = true)
    (hidx : st.seqno2ptr_ buf.bh.seqno_g = some a) :
    repossessOp (freeOp st a) a = st ∧
    (repossessOp (freeOp st a) a).heap a = some buf ∧
    (repossessOp (freeOp st a) a).size_ = st.size_ ∧
    (repossessOp (freeOp st a) a).allocd_ = st.allocd_ ∧
    (repossessOp (freeOp st a) a).seqno2ptr_ buf.bh.seqno_g = some a := by
  have h : freeOp st a = st := by simp [freeOp, hheap, hseq]
  refine ⟨?_, ?_, ?_, ?_, ?_⟩ <;> simp [repossessOp, h, hheap, hidx]

/-- Witness for C4 at a concrete store and buffer. -/
theorem c4_repossess_frame_witness :
    (stA.heap 5 = some bufA ∧ bufA.bh.seqno_g ≠ SEQNO_NONE ∧
     BH_is_released bufA.bh = true ∧
     stA.seqno2ptr_ bufA.bh.seqno_g = some 5) ∧
    (repossessOp (freeOp stA 5) 5 = stA ∧
     (repossessOp (freeOp stA 5) 5).heap 5 = some bufA ∧
     (repossessOp (freeOp stA 5) 5).size_ = stA.size_ ∧
     (repossessOp (freeOp stA 5) 5).allocd_ = stA.allocd_ ∧
     (repossessOp (freeOp stA 5) 5).seqno2ptr_ bufA.bh.seqno_g = some 5) :=
  ⟨⟨by decide, by decide, by decide, by decide⟩,
   c4_repossess_frame stA 5 bufA (by decide) (by decide) (by decide)
     (by decide)⟩

/-- Claim C5: after `seqno_lock(s)`, the `discard` assertion
`bh->seqno_g < seqno_locked_` holds exactly for buffers with seqno below
`s`: discarding a released buffer with `seqno_g < s` passes the assertion
and reclaims it, while a discard of any buffer with `seqno_g ≥ s` trips the
assertion (the violating branch aborts), so no such buffer is reclaimed. -/
theorem c5_seqno_lock_respected (st : MemStore) (s : Int) :
    (seqno_lockOp st s).seqno_locked_ = s ∧
    (∀ a buf, (seqno_lockOp st s).heap a = some buf →
      s ≤ buf.bh.seqno_g → discardChecked (seqno_lockOp st s) a = none) ∧
    (∀ a buf, (seqno_lockOp st s).heap a = some buf →
      BH_is_released buf.bh = true → buf.bh.seqno_g < s →
      discard_asserts (seqno_lockOp st s) buf = true ∧
      discardChecked (seqno_lockOp st s) a =
        some (discardOp (seqno_lockOp st s) a)) := by
  refine ⟨rfl, fun a buf hheap hge => ?_, fun a buf hheap hrel hlt => ?_⟩
  · have : discard_asserts (seqno_lockOp st s) buf = false := by
      simp [discard_asserts, seqno_lockOp, not_lt.mpr hge]
    simp [discardChecked, hheap, this]
  · have hok : discard_asserts (seqno_lockOp st s) buf = true := by
      simp [discard_asserts, seqno_lockOp, hrel, hlt]
    exact ⟨hok, by simp [discardChecked, hheap, hok]⟩

/-- Witness for C5 at a concrete store: with the lock at 7, the buffer at
seqno 7 cannot be discarded while the released buffer at seqno 3 can. -/
theorem c5_seqno_lock_respected_witness :
    ((seqno_lockOp stA 7).heap 5 = some bufA ∧ (7 : Int) ≤ bufA.bh.seqno_g ∧
     (seqno_lockOp stA 7).heap 6 = some bufB ∧
     BH_is_released bufB.bh = true ∧ bufB.bh.seqno_g < 7) ∧
    (discardChecked (seqno_lockOp stA 7) 5 = none ∧
     discard_asserts (seqno_lockOp stA 7) bufB = true ∧
     discardChecked (seqno_lockOp stA 7) 6 =
       some (discardOp (seqno_lockOp stA 7) 6)) :=
  ⟨⟨by decide, by decide, by decide, by decide, by decide⟩,
   ⟨(c5_seqno_lock_respected stA 7).2.1 5 bufA (by decide) (by decide),
    ((c5_seqno_lock_respected stA 7).2.2 6 bufB (by decide) (by decide)
      (by decide)).1,
    ((c5_seqno_lock_respected stA 7).2.2 6 bufB (by decide) (by decide)
      (by decide)).2⟩⟩

end Gcache

namespace GcsFifo

/-- Claim C6 (code bug): the overflow guard
`if (l * item_size > (ulong) GU_ULONG_MAX) return NULL;` compares a
`size_t` product — already reduced mod `2^64` — against `ULONG_MAX`, so it
can never fire.  At `length = 4`, `item_size = 2^62` the mathematical
product is `2^64`, which overflows, yet `gcs_fifo_lite_create` does not
return NULL: it builds a 4-slot FIFO whose queue allocation wrapped to 0
bytes. -/
theorem c6_create_overflow_check_dead :
    gcs_fifo_lite_create 4 (2 ^ 62) true (some []) =
      some { item_size := 2 ^ 62, length := 4, mask := 3, used := 0,
             closed := false, destroyed := false, put_wait := 0,
             get_wait := 0, queueBytes := 0, queue := [] } ∧
    4 * 2 ^ 62 > GU_ULONG_MAX ∧
    4 * 2 ^ 62 % WORD = 0 := by
  refine ⟨?_, ?_, ?_⟩ <;> decide

/-- Claim C7: a successful `gcs_fifo_lite_close` (mutex lock returned 0)
sets `closed`, zeroes both waiter counts, broadcasts both condition
variables (waking every blocked producer and consumer, which then observe
`closed`), returns 0, and leaves the queue contents, capacity, mask, item
size and fill level unchanged. -/
theorem c7_close_success (f : FifoLite) :
    (gcs_fifo_lite_close f 0).1 = 0 ∧
    (gcs_fifo_lite_close f 0).2.1.closed = true ∧
    (gcs_fifo_lite_close f 0).2.1.put_wait = 0 ∧
    (gcs_fifo_lite_close f 0).2.1.get_wait = 0 ∧
    (gcs_fifo_lite_close f 0).2.2.1 = true ∧
    (gcs_fifo_lite_close f 0).2.2.2 = true ∧
    (gcs_fifo_lite_close f 0).2.1.queue = f.queue ∧
    (gcs_fifo_lite_close f 0).2.1.length = f.length ∧
    (gcs_fifo_lite_close f 0).2.1.mask = f.mask ∧
    (gcs_fifo_lite_close f 0).2.1.item_size = f.item_size ∧
    (gcs_fifo_lite_close f 0).2.1.used = f.used := by
  simp [gcs_fifo_lite_close]

end GcsFifo

namespace GuAsio

/-- Claim C8: with one `async_write` outstanding, starting a second one
fails with the busy error kind (`EBUSY`), the socket state — in particular
the in-flight buffer — is untouched, and the first write still completes
with all of its bytes transferred. -/
theorem c8_write_twice_busy (s : SocketW) (b bufs2 : List Nat)
    (hin : s.in_flight = some b) :
    (async_write s bufs2).1 = some EBUSY ∧
    (async_write s bufs2).2 = s ∧
    (async_write s bufs2).2.in_flight = some b ∧
    (complete_write (async_write s bufs2).2).completed =
      s.completed ++ [b.length] := by
  refine ⟨?_, ?_, ?_, ?_⟩ <;> simp [async_write, complete_write, hin]

/-- Witness for C8 at a concrete socket with a three-byte write in
flight. -/
theorem c8_write_twice_busy_witness :
    (SocketW.mk (some [1, 2, 3]) []).in_flight = some [1, 2, 3] ∧
    ((async_write (SocketW.mk (some [1, 2, 3]) []) [4]).1 = some EBUSY ∧
     (async_write (SocketW.mk (some [1, 2, 3]) []) [4]).2 =
       SocketW.mk (some [1, 2, 3]) [] ∧
     (async_write (SocketW.mk (some [1, 2, 3]) []) [4]).2.in_flight =
       some [1, 2, 3] ∧
     (complete_write
        (async_write (SocketW.mk (some [1, 2, 3]) []) [4]).2).completed =
       (SocketW.mk (some [1, 2, 3]) []).completed ++ [([1, 2, 3] : List Nat).length]) :=
  ⟨rfl, c8_write_twice_busy (SocketW.mk (some [1, 2, 3]) []) [1, 2, 3] [4] rfl⟩

/-- Once the connect handler has fired, no further reactor event changes the
connect-phase state. -/
theorem hs_run_fixed (evs : List CEvent) (c : ClientHs)
    (h : c.handler_fired ≠ []) : hs_run c evs = c := by
  induction evs with
  | nil => rfl
  | cons e es ih =>
    have hstep : hs_step c e = c := by simp [hs_step, h]
    show hs_run (hs_step c e) es = c
    rw [hstep]
    exact ih

/-- Claim C9: with a client stream engine scripted to return `want_read`
and then `success`, the handshake is not complete — and the connect handler
has not fired — after the TCP connect alone; once the socket becomes
readable the reactor re-invokes the handshake (two `client_handshake`
calls) and the connect handler fires exactly once with no error, and no
later reactor event can invoke it a second time. -/
theorem c9_client_handshake_want_read (evs : List CEvent) :
    (hs_run (hs_init [(.want_read, 0), (.success, 0)])
       [.tcp_connected]).handler_fired = [] ∧
    (hs_run (hs_init [(.want_read, 0), (.success, 0)])
       [.tcp_connected]).awaiting = some .want_read ∧
    hs_run (hs_init [(.want_read, 0), (.success, 0)])
       ([.tcp_connected, .readable] ++ evs) =
      { script := [], calls := 2, awaiting := none,
        handler_fired := [none] } := by
  refine ⟨rfl, rfl, ?_⟩
  have h2 : hs_run (hs_init [(.want_read, 0), (.success, 0)])
      [.tcp_connected, .readable] =
      { script := [], calls := 2, awaiting := none,
        handler_fired := [none] } := rfl
  have happ : hs_run (hs_init [(.want_read, 0), (.success, 0)])
      ([.tcp_connected, .readable] ++ evs) =
      hs_run (hs_run (hs_init [(.want_read, 0), (.success, 0)])
        [.tcp_connected, .readable]) evs := by
    simp [hs_run, List.foldl_append]
  rw [happ, h2]
  exact hs_run_fixed evs _ (by simp)

end GuAsio

namespace GcsGcomm

/-- Claim C10 counterexample: with a one-byte view event at the front, a
zero-length buffer gets the full required size back without consumption;
but the subsequent call with a big-enough buffer does not deliver the
message when the component-message allocation fails — it returns `-ENOMEM`
and leaves the event queued and uncounted, falsifying "a subsequent call
with a buffer of at least the returned size delivers the same message". -/
theorem c10_recv_enomem_counterexample :
    (gcs_gcomm_recv cV 0 true).1 = (reqSize (VsEv.viewEv [9]) : Int) ∧
    (gcs_gcomm_recv cV 0 true).2.2.eq = cV.eq ∧
    reqSize (VsEv.viewEv [9]) ≤ 5 ∧
    (gcs_gcomm_recv (gcs_gcomm_recv cV 0 true).2.2 5 false).1 = -ENOMEM ∧
    (gcs_gcomm_recv (gcs_gcomm_recv cV 0 true).2.2 5 false).2.2.eq =
      [VsEv.viewEv [9]] ∧
    (gcs_gcomm_recv (gcs_gcomm_recv cV 0 true).2.2 5 false).2.2.n_received =
      cV.n_received := by
  refine ⟨?_, ?_, ?_, ?_, ?_, ?_⟩ <;> decide

/-- Claim C10 (amended): when the event at the queue front needs more bytes
than the caller's buffer holds — and, for a view event, the
component-message allocation succeeds — `gcs_gcomm_recv` returns the full
required size without consuming it: the queue front and `n_received` are
unchanged, and a subsequent call with a buffer at least that large (again
with successful component-message allocation for a view event) dequeues the
event, increments `n_received`, and (for a message event) delivers the same
payload; the front event is dequeued and counted only when the returned
size fits the caller's buffer length. -/
theorem c10_recv_oversized (c : GConn) (ev : VsEv) (rest : List VsEv)
    (len : Nat) (a1 : Bool) (hterm : c.terminate = false)
    (hq : c.eq = ev :: rest) (hev : ev ≠ .eofEv) (hlen : len < reqSize ev)
    (ha1 : ∀ bytes, ev = .viewEv bytes → a1 = true) :
    (gcs_gcomm_recv c len a1).1 = (reqSize ev : Int) ∧
    (gcs_gcomm_recv c len a1).2.2.eq = c.eq ∧
    (gcs_gcomm_recv c len a1).2.2.n_received = c.n_received ∧
    (∀ len' a2, reqSize ev ≤ len' →
      (∀ bytes, ev = .viewEv bytes → a2 = true) →
      (gcs_gcomm_recv (gcs_gcomm_recv c len a1).2.2 len' a2).2.2.eq = rest ∧
      (gcs_gcomm_recv (gcs_gcomm_recv c len a1).2.2 len' a2).2.2.n_received =
        c.n_received + 1 ∧
      (∀ payload ut src, ev = .msg payload ut src →
        (gcs_gcomm_recv (gcs_gcomm_recv c len a1).2.2 len' a2).2.1 =
          payload)) ∧
    (∀ l2 a3, (gcs_gcomm_recv c l2 a3).2.2.n_received = c.n_received + 1 →
      reqSize ev ≤ l2) := by
  cases ev with
  | eofEv => exact absurd rfl hev
  | msg payload ut src =>
    have hc : ¬ payload.length ≤ len := by
      simpa [reqSize] using not_le.mpr hlen
    refine ⟨?_, ?_, ?_, ?_, ?_⟩
    · simp [gcs_gcomm_recv, hterm, hq, hc, reqSize]
    · simp [gcs_gcomm_recv, hterm, hq, hc]
    · simp [gcs_gcomm_recv, hterm, hq, hc]
    · intro len' a2 hle _
      have hle' : payload.length ≤ len' := by simpa [reqSize] using hle
      have hmid : (gcs_gcomm_recv c len a1).2.2 = c := by
        simp [gcs_gcomm_recv, hterm, hq, hc]
      rw [hmid]
      refine ⟨?_, ?_, ?_⟩
      · simp [gcs_gcomm_recv, hterm, hq, hle']
      · simp [gcs_gcomm_recv, hterm, hq, hle']
      · intro p u s hmsg
        cases hmsg
        simp [gcs_gcomm_recv, hterm, hq, hle']
    · intro l2 a3 h
      by_cases hf : payload.length ≤ l2
      · simpa [reqSize] using hf
      · have hun : (gcs_gcomm_recv c l2 a3).2.2.n_received = c.n_received := by
          simp [gcs_gcomm_recv, hterm, hq, hf]
        simp [reqSize]
        omega
  | preCopied ms ut src =>
    have hc : ¬ ms ≤ len := by simpa [reqSize] using not_le.mpr hlen
    refine ⟨?_, ?_, ?_, ?_, ?_⟩
    · simp [gcs_gcomm_recv, hterm, hq, hc, reqSize]
    · simp [gcs_gcomm_recv, hterm, hq, hc]
    · simp [gcs_gcomm_recv, hterm, hq, hc]
    · intro len' a2 hle _
      have hle' : ms ≤ len' := by simpa [reqSize] using hle
      have hmid : (gcs_gcomm_recv c len a1).2.2 = c := by
        simp [gcs_gcomm_recv, hterm, hq, hc]
      rw [hmid]
      refine ⟨?_, ?_, ?_⟩
      · simp [gcs_gcomm_recv, hterm, hq, hle']
      · simp [gcs_gcomm_recv, hterm, hq, hle']
      · intro p u s hmsg
        simp at hmsg
    · intro l2 a3 h
      by_cases hf : ms ≤ l2
      · simpa [reqSize] using hf
      · have hun : (gcs_gcomm_recv c l2 a3).2.2.n_received = c.n_received := by
          simp [gcs_gcomm_recv, hterm, hq, hf]
        simp [reqSize]
        omega
  | viewEv bytes =>
    have ha1' : a1 = true := ha1 bytes rfl
    subst ha1'
    have hlen' : len < bytes.length := by simpa [reqSize] using hlen
    have hc : ¬ max bytes.length len ≤ len := by omega
    refine ⟨?_, ?_, ?_, ?_, ?_⟩
    · have hb : ¬ bytes.length ≤ len := by omega
      have hm : max bytes.length len = bytes.length := by omega
      simp [gcs_gcomm_recv, hterm, hq, hc, reqSize, hm, hb]
    · simp [gcs_gcomm_recv, hterm, hq, hc]
    · simp [gcs_gcomm_recv, hterm, hq, hc]
    · intro len' a2 hle ha2
      have ha2' : a2 = true := ha2 bytes rfl
      subst ha2'
      have hle' : bytes.length ≤ len' := by simpa [reqSize] using hle
      have hc' : max bytes.length len' ≤ len' := by omega
      have hmid : (gcs_gcomm_recv c len true).2.2 =
          { c with comp_msg := some bytes } := by
        simp [gcs_gcomm_recv, hterm, hq, hc]
      rw [hmid]
      refine ⟨?_, ?_, ?_⟩
      · simp [gcs_gcomm_recv, hterm, hq, hc']
      · simp [gcs_gcomm_recv, hterm, hq, hc']
      · intro p u s hmsg
        simp at hmsg
    · intro l2 a3 h
      cases a3 with
      | false =>
        have hun : (gcs_gcomm_recv c l2 false).2.2.n_received =
            c.n_received := by
          simp [gcs_gcomm_recv, hterm, hq]
        simp [reqSize]
        omega
      | true =>
        by_cases hf : bytes.length ≤ l2
        · simpa [reqSize] using hf
        · have h2 : ¬ max bytes.length l2 ≤ l2 := by omega
          have hun : (gcs_gcomm_recv c l2 true).2.2.n_received =
              c.n_received := by
            simp [gcs_gcomm_recv, hterm, hq, h2]
          simp [reqSize]
          omega

/-- Witness for the amended C10: a two-byte buffer is too small for the
queued three-byte message; the call reports 3 and consumes nothing, and a
big enough buffer then receives the same payload. -/
theorem c10_recv_oversized_witness :
    (c0.terminate = false ∧
     c0.eq = VsEv.msg [1, 2, 3] 0 0 :: [VsEv.viewEv [9]] ∧
     VsEv.msg [1, 2, 3] 0 0 ≠ VsEv.eofEv ∧
     2 < reqSize (VsEv.msg [1, 2, 3] 0 0) ∧
     (∀ bytes, VsEv.msg [1, 2, 3] 0 0 = VsEv.viewEv bytes →
       (true : Bool) = true)) ∧
    ((gcs_gcomm_recv c0 2 true).1 =
       (reqSize (VsEv.msg [1, 2, 3] 0 0) : Int) ∧
     (gcs_gcomm_recv c0 2 true).2.2.eq = c0.eq ∧
     (gcs_gcomm_recv c0 2 true).2.2.n_received = c0.n_received ∧
     (∀ len' a2, reqSize (VsEv.msg [1, 2, 3] 0 0) ≤ len' →
       (∀ bytes, VsEv.msg [1, 2, 3] 0 0 = VsEv.viewEv bytes → a2 = true) →
       (gcs_gcomm_recv (gcs_gcomm_recv c0 2 true).2.2 len' a2).2.2.eq =
         [VsEv.viewEv [9]] ∧
       (gcs_gcomm_recv (gcs_gcomm_recv c0 2 true).2.2 len' a2).2.2.n_received =
         c0.n_received + 1 ∧
       (∀ payload ut src, VsEv.msg [1, 2, 3] 0 0 = VsEv.msg payload ut src →
         (gcs_gcomm_recv (gcs_gcomm_recv c0 2 true).2.2 len' a2).2.1 =
           payload)) ∧
     (∀ l2 a3, (gcs_gcomm_recv c0 l2 a3).2.2.n_received = c0.n_received + 1 →
       reqSize (VsEv.msg [1, 2, 3] 0 0) ≤ l2)) :=
  ⟨⟨rfl, rfl, by decide, by decide, fun _ _ => rfl⟩,
   c10_recv_oversized c0 (VsEv.msg [1, 2, 3] 0 0) [VsEv.viewEv [9]] 2 true
     rfl rfl (by decide) (by decide) (fun _ _ => rfl)⟩

end GcsGcomm

